import Mathlib

/-!
# Verification of the Rental Genie conversation core

Shallow embedding of `app/agent.py` and `app/conversation_memory.py`:
tenant profiles, the rule-based extractor `extract_tenant_info`, the
post-processing of the LLM extractor `extract_tenant_info_llm`, the
handoff trigger detector `detect_handoff_triggers`, the profile store
(`update_tenant_profile`, `get_missing_information`,
`get_conversation_summary`) and the orchestration entry point
`handle_message`.

Modelling conventions:
* Python values reaching profile fields are modelled by `PyVal`
  (None / int / str / bool) with Python truthiness.
* Wall-clock timestamps (`datetime.now().isoformat()`) are passed in as
  explicit `now : String` arguments.
* External collaborators (the LLM chat model, notification delivery,
  the persistence backend) are oracles: their outcomes are inputs.
  Persistence sync (`_sync_to_persistent_storage`) and the two Slack
  notification helpers swallow their own exceptions in the source and
  never change the session state, so they are not represented.
* Python `re` is modelled by a small backtracking engine (`RE`) covering
  exactly the constructs the source patterns use, with `re.search`
  leftmost semantics and greedy backtracking.
-/

set_option maxRecDepth 8192

namespace RentalGenie

/-- An apostrophe character, used inside modelled Python string literals. -/
def apos : Char := Char.ofNat 39

/-- The apostrophe as a one-character string. -/
def sq : String := String.singleton apos

/-- Python runtime values that can reach a `TenantProfile` attribute. -/
inductive PyVal where
  | pyNone
  | pyInt (n : Int)
  | pyStr (s : String)
  | pyBool (b : Bool)
  deriving DecidableEq, Repr

/-- Python truthiness of a `PyVal` (`None`, `0`, `""`, `False` are falsy). -/
def PyVal.truthy : PyVal → Bool
  | .pyNone => false
  | .pyInt n => n != 0
  | .pyStr s => s != ""
  | .pyBool b => b

/-- Python `str(...)` rendering of a `PyVal` as used in f-strings. -/
def PyVal.render : PyVal → String
  | .pyNone => "None"
  | .pyInt n => toString n
  | .pyStr s => s
  | .pyBool b => if b then "True" else "False"

/-- Python `str.lower()` (ASCII case folding; all inputs considered are ASCII). -/
def pyLower (s : String) : String := String.mk (s.data.map Char.toLower)

/-- Contiguous-sublist test on character lists (Python `in` on strings). -/
def isSubL (needle : List Char) : List Char → Bool
  | [] => needle.isEmpty
  | c :: t => needle.isPrefixOf (c :: t) || isSubL needle t

/-- Python substring containment `needle in hay`. -/
def substrB (needle hay : String) : Bool := isSubL needle.data hay.data

/-- Python `str.strip()` on a character list. -/
def pyStripL (cs : List Char) : List Char :=
  ((cs.dropWhile Char.isWhitespace).reverse.dropWhile Char.isWhitespace).reverse

/-- Python `str.strip()`. -/
def pyStrip (s : String) : String := String.mk (pyStripL s.data)

/-- Python `str.isdigit()` (ASCII digits; non-empty and all digits). -/
def pyIsDigit (s : String) : Bool := s != "" && s.data.all Char.isDigit

/-- Python `int(...)` on a digit-only string. -/
def parseNatL (cs : List Char) : Nat :=
  cs.foldl (fun a c => a * 10 + (c.toNat - 48)) 0

/-- Python `int(...)` on a digit-only string, `String` version. -/
def parseNatS (s : String) : Nat := parseNatL s.data

/-! ## A small regex engine

Sufficient for every pattern in `extract_tenant_info`: literals,
alternation, optional groups, greedy character-class repetition
(`\s+`, `\d+`, `[^,\.]+`, `{1,2}` bounds), one capture group, and the
word boundary `\b`.  Matching is Python-`re.search` compatible:
leftmost match position, then backtracking in pattern order with greedy
repetition. -/

/-- Regex abstract syntax. -/
inductive RE where
  | eps
  | lit (cs : List Char)
  | cls (p : Char → Bool) (lo : Nat) (hi : Option Nat)
  | seq (a b : RE)
  | alt (a b : RE)
  | opt (a : RE)
  | grp (a : RE)
  | wb

/-- Matcher state: remaining input, previous character (for `\b`),
current group-1 capture. -/
structure MState where
  rest : List Char
  prev : Option Char
  cap : Option (List Char)

/-- Python `\w` (ASCII view). -/
def isWordChar (c : Char) : Bool := c.isAlphanum || c == '_'

/-- Consume `n` characters from the state, tracking the previous character. -/
def consumeN (n : Nat) (st : MState) : MState :=
  { st with rest := st.rest.drop n,
            prev := if n == 0 then st.prev else (st.rest.take n).getLast? }

/-- Greedy backtracking over a character-class repetition: try consuming
`n` characters, then `n-1`, ..., down to `lo`. -/
def clsBack (lo : Nat) (st : MState) (k : MState → Option MState) :
    Nat → Option MState
  | 0 => k (consumeN 0 st)
  | n + 1 =>
    match k (consumeN (n + 1) st) with
    | some r => some r
    | none => if lo ≤ n then clsBack lo st k n else none

/-- CPS backtracking matcher.  `k` is the continuation receiving the
state after this fragment. -/
def reM : RE → MState → (MState → Option MState) → Option MState
  | .eps, st, k => k st
  | .wb, st, k =>
    let leftW := match st.prev with | some c => isWordChar c | none => false
    let rightW := match st.rest with | c :: _ => isWordChar c | [] => false
    if leftW != rightW then k st else none
  | .lit cs, st, k =>
    if cs.isPrefixOf st.rest then k (consumeN cs.length st) else none
  | .cls p lo hi, st, k =>
    let maxRun := (st.rest.takeWhile p).length
    let m := match hi with | some h => min maxRun h | none => maxRun
    if m < lo then none else clsBack lo st k m
  | .seq a b, st, k => reM a st (fun st1 => reM b st1 k)
  | .alt a b, st, k =>
    match reM a st k with
    | some r => some r
    | none => reM b st k
  | .opt a, st, k =>
    match reM a st k with
    | some r => some r
    | none => k st
  | .grp a, st, k =>
    reM a st (fun st1 =>
      k { st1 with cap := some (st.rest.take (st.rest.length - st1.rest.length)) })

/-- `re.search` from successive start positions (leftmost-first);
returns the match state and its start index. -/
def reSearchAux (r : RE) : List Char → Option Char → Nat → Option (Nat × MState)
  | cs, prev, idx =>
    match reM r ⟨cs, prev, none⟩ some with
    | some st => some (idx, st)
    | none =>
      match cs with
      | [] => none
      | c :: rest => reSearchAux r rest (some c) (idx + 1)

/-- Python `re.search(pattern, s)`: `none` on no match, otherwise the
match state (with group-1 capture) and start index. -/
def reSearch (r : RE) (cs : List Char) : Option (Nat × MState) :=
  reSearchAux r cs none 0

/-- Whether `re.search` succeeds at all (used for truth-test-only patterns). -/
def reTest (r : RE) (cs : List Char) : Bool := (reSearch r cs).isSome

/-- Group-1 capture of the first match, if the pattern matched. -/
def reCapture (r : RE) (cs : List Char) : Option (List Char) :=
  match reSearch r cs with
  | some (_, st) => st.cap
  | none => none

/-- Literal regex from a string. -/
def litS (s : String) : RE := .lit s.data

/-- `\s+` -/
def sp1 : RE := .cls Char.isWhitespace 1 none

/-- `\s*` -/
def sp0 : RE := .cls Char.isWhitespace 0 none

/-- `(\d+)`-style digit run. -/
def digits1 : RE := .cls Char.isDigit 1 none

/-- `\d{lo,hi}` -/
def digitsBetween (lo hi : Nat) : RE := .cls Char.isDigit lo (some hi)

/-- Fold a non-empty list of alternatives, left branch first (Python `|`). -/
def altList : List RE → RE
  | [] => .eps
  | [r] => r
  | r :: rs => .alt r (altList rs)

/-- Sequence a list of fragments. -/
def seqList : List RE → RE
  | [] => .eps
  | [r] => r
  | r :: rs => .seq r (seqList rs)

/-- Alternation of plain literals, e.g. `(?:male|homme|man)`. -/
def altLits (ws : List String) : RE := altList (ws.map litS)

/-! ## The tenant profile and the profile store

`TenantProfile` (conversation_memory.py).  Every dataclass attribute
holds a Python value (`PyVal`): the merge is duck-typed
(`if hasattr(profile, key): setattr(profile, key, value)`), so ANY
attribute — the twelve data fields, but also `status`, the workflow
dates, the timestamps and the turn counter — can be overwritten by an
update map, and the LLM extractor's keys are unconstrained strings.
Wall-clock timestamps are supplied by the caller. -/

/-- `TenantProfile` dataclass: twelve optional data fields plus
`status`, the workflow dates, the timestamps and the turn counter,
all of them visible to `hasattr`/`setattr`. -/
structure TenantProfile where
  age : PyVal
  sex : PyVal
  occupation : PyVal
  move_in_date : PyVal
  rental_duration : PyVal
  guarantor_status : PyVal
  guarantor_details : PyVal
  viewing_interest : PyVal
  availability : PyVal
  language_preference : PyVal
  property_interest : PyVal
  notes : PyVal
  status : PyVal
  application_date : PyVal
  lease_start_date : PyVal
  lease_end_date : PyVal
  created_at : PyVal
  last_updated : PyVal
  conversation_turns : PyVal
  deriving DecidableEq, Repr

/-- A fresh profile, as built by `get_or_create_session` on a miss
(all data fields `None`, status `prospect`, zero turns). -/
def TenantProfile.init (now : String) : TenantProfile where
  age := .pyNone
  sex := .pyNone
  occupation := .pyNone
  move_in_date := .pyNone
  rental_duration := .pyNone
  guarantor_status := .pyNone
  guarantor_details := .pyNone
  viewing_interest := .pyNone
  availability := .pyNone
  language_preference := .pyNone
  property_interest := .pyNone
  notes := .pyNone
  status := .pyStr "prospect"
  application_date := .pyNone
  lease_start_date := .pyNone
  lease_end_date := .pyNone
  created_at := .pyStr now
  last_updated := .pyStr now
  conversation_turns := .pyInt 0

/-- The twelve optional data attributes of `TenantProfile` — the
"profile fields" in the spec's sense.  The remaining attributes
(`status`, dates, timestamps, turn counter), equally writable by the
duck-typed merge, are `MetaField` below. -/
inductive PField where
  | age | sex | occupation | move_in_date | rental_duration
  | guarantor_status | guarantor_details | viewing_interest
  | availability | language_preference | property_interest | notes
  deriving DecidableEq, Repr

/-- Attribute read (`getattr`) for the value fields. -/
def getF (p : TenantProfile) : PField → PyVal
  | .age => p.age
  | .sex => p.sex
  | .occupation => p.occupation
  | .move_in_date => p.move_in_date
  | .rental_duration => p.rental_duration
  | .guarantor_status => p.guarantor_status
  | .guarantor_details => p.guarantor_details
  | .viewing_interest => p.viewing_interest
  | .availability => p.availability
  | .language_preference => p.language_preference
  | .property_interest => p.property_interest
  | .notes => p.notes

/-- Attribute write (`setattr`) for the value fields. -/
def setF (p : TenantProfile) : PField → PyVal → TenantProfile
  | .age, v => { p with age := v }
  | .sex, v => { p with sex := v }
  | .occupation, v => { p with occupation := v }
  | .move_in_date, v => { p with move_in_date := v }
  | .rental_duration, v => { p with rental_duration := v }
  | .guarantor_status, v => { p with guarantor_status := v }
  | .guarantor_details, v => { p with guarantor_details := v }
  | .viewing_interest, v => { p with viewing_interest := v }
  | .availability, v => { p with availability := v }
  | .language_preference, v => { p with language_preference := v }
  | .property_interest, v => { p with property_interest := v }
  | .notes, v => { p with notes := v }

/-- The non-data attributes of the dataclass, equally visible to the
`hasattr(profile, key)` test of the merge. -/
inductive MetaField where
  | status | application_date | lease_start_date | lease_end_date
  | created_at | last_updated | conversation_turns
  deriving DecidableEq, Repr

/-- Attribute write (`setattr`) for the non-data attributes. -/
def setM (p : TenantProfile) : MetaField → PyVal → TenantProfile
  | .status, v => { p with status := v }
  | .application_date, v => { p with application_date := v }
  | .lease_start_date, v => { p with lease_start_date := v }
  | .lease_end_date, v => { p with lease_end_date := v }
  | .created_at, v => { p with created_at := v }
  | .last_updated, v => { p with last_updated := v }
  | .conversation_turns, v => { p with conversation_turns := v }

/-- Resolution of a string key to a data attribute. -/
def attrOf (key : String) : Option PField :=
  if key = "age" then some .age
  else if key = "sex" then some .sex
  else if key = "occupation" then some .occupation
  else if key = "move_in_date" then some .move_in_date
  else if key = "rental_duration" then some .rental_duration
  else if key = "guarantor_status" then some .guarantor_status
  else if key = "guarantor_details" then some .guarantor_details
  else if key = "viewing_interest" then some .viewing_interest
  else if key = "availability" then some .availability
  else if key = "language_preference" then some .language_preference
  else if key = "property_interest" then some .property_interest
  else if key = "notes" then some .notes
  else none

/-- Resolution of a string key to a non-data attribute. -/
def metaAttrOf (key : String) : Option MetaField :=
  if key = "status" then some .status
  else if key = "application_date" then some .application_date
  else if key = "lease_start_date" then some .lease_start_date
  else if key = "lease_end_date" then some .lease_end_date
  else if key = "created_at" then some .created_at
  else if key = "last_updated" then some .last_updated
  else if key = "conversation_turns" then some .conversation_turns
  else none

/-- One `setattr` step of the merge loop: `hasattr` accepts every
dataclass attribute; only keys matching no attribute at all are
silently skipped. -/
def setFieldByName (p : TenantProfile) (key : String) (v : PyVal) : TenantProfile :=
  match attrOf key with
  | some fld => setF p fld v
  | none =>
    match metaAttrOf key with
    | some m => setM p m v
    | none => p

/-- The `for key, value in updates.items()` loop of
`ConversationMemory.update_tenant_profile`. -/
def applyUpdates (p : TenantProfile) (updates : List (String × PyVal)) : TenantProfile :=
  updates.foldl (fun q kv => setFieldByName q kv.1 kv.2) p

/-- The six required fields, in the order used by the source. -/
def requiredFieldList : List PField :=
  [.age, .sex, .occupation, .move_in_date, .rental_duration, .guarantor_status]

/-- `all(getattr(profile, field) for field in required_fields)`. -/
def requiredComplete (p : TenantProfile) : Bool :=
  requiredFieldList.all (fun f => (getF p f).truthy)

/-- Python `==` between an attribute value and a string literal
(a value of a different runtime type compares unequal). -/
def PyVal.eqStr : PyVal → String → Bool
  | .pyStr t, s => t == s
  | _, _ => false

/-- `ConversationMemory._should_auto_qualify`:
`all(getattr(profile, f) for f in required_fields)
 and profile.status == TenantStatus.PROSPECT.value`. -/
def shouldAutoQualify (p : TenantProfile) : Bool :=
  requiredComplete p && p.status.eqStr "prospect"

/-- `profile.conversation_turns += 1`: the increment for an int (or a
bool, which Python adds as an int).  For any other value CPython raises
a `TypeError`; that error path is not modelled — the value is kept
unchanged (see the note on `update_tenant_profile`). -/
def pyIncr : PyVal → PyVal
  | .pyInt n => .pyInt (n + 1)
  | .pyBool b => .pyInt ((if b then 1 else 0) + 1)
  | v => v

/-- `ConversationMemory.update_tenant_profile`: merge the update map,
refresh metadata, then auto-qualify.  The persistent-storage sync
swallows its own errors and does not affect in-memory state.  If an
update map wrote a non-numeric value into `conversation_turns`, the
source's `+= 1` raises a `TypeError` (propagating to the caller's
top-level handler); that path is collapsed by the total `pyIncr`, so
the `handle_message` theorems below quantify over oracles as if the
merge always completes. -/
def update_tenant_profile (p : TenantProfile) (updates : List (String × PyVal))
    (now : String) : TenantProfile :=
  let p1 := applyUpdates p updates
  let p2 := { p1 with last_updated := .pyStr now,
                      conversation_turns := pyIncr p1.conversation_turns }
  if shouldAutoQualify p2 then { p2 with status := .pyStr "qualified" } else p2

/-- `ConversationMemory.get_missing_information` body for an existing
session: required fields that are falsy, in source order. -/
def missingInformation (p : TenantProfile) : List String :=
  (if p.age.truthy then [] else ["age"])
    ++ (if p.sex.truthy then [] else ["sex"])
    ++ (if p.occupation.truthy then [] else ["occupation"])
    ++ (if p.move_in_date.truthy then [] else ["move_in_date"])
    ++ (if p.rental_duration.truthy then [] else ["rental_duration"])
    ++ (if p.guarantor_status.truthy then [] else ["guarantor_status"])

/-! ## The rule-based extractor `extract_tenant_info`

Each Lean pattern value carries the Python regex it transcribes in a
comment.  Matching is against the lower-cased message (`message_lower`),
except for the occupation slice which reads the original message, as in
the source. -/

/-- First index of a contiguous sublist (Python `str.find`, hit case). -/
def findSubIdx (needle : List Char) : List Char → Option Nat
  | [] => if needle.isEmpty then some 0 else none
  | c :: t =>
    if needle.isPrefixOf (c :: t) then some 0
    else (findSubIdx needle t).map (· + 1)

/-- `[:\s]*` -/
def colonSp0 : RE := .cls (fun c => c == ':' || c.isWhitespace) 0 none

/-- `[^,\.]+` -/
def notCommaDot1 : RE := .cls (fun c => !(c == ',' || c == '.')) 1 none

/-- `years?` -/
def yearsOpt : RE := .seq (litS "year") (.opt (litS "s"))

/-- `ans?` -/
def ansOpt : RE := .seq (litS "an") (.opt (litS "s"))

/-- `months?|mois` -/
def monthsAlt : RE := .alt (.seq (litS "month") (.opt (litS "s"))) (litS "mois")

/-- `(?:on\s+)?` -/
def onOpt : RE := .opt (.seq (litS "on") sp1)

/-- `(?:from\s+)?` -/
def fromOpt : RE := .opt (.seq (litS "from") sp1)

/-- `(?:of\s+)?` -/
def ofOpt : RE := .opt (.seq (litS "of") sp1)

/-- `(?:for\s+)?` -/
def forOpt : RE := .opt (.seq (litS "for") sp1)

/-- `age_patterns` of `extract_tenant_info`. -/
def agePatterns : List RE :=
  [ -- (\d+)\s*(?:years?\s*old|ans?)
    seqList [.grp digits1, sp0,
      .alt (seqList [yearsOpt, sp0, litS "old"]) ansOpt],
    -- age[:\s]*(\d+)
    seqList [litS "age", colonSp0, .grp digits1],
    -- i\s*am\s*(\d+)\s*(?:years?|ans?)
    seqList [litS "i", sp0, litS "am", sp0, .grp digits1, sp0, .alt yearsOpt ansOpt],
    -- (\d+)\s*(?:years?|ans?)\s*old
    seqList [.grp digits1, sp0, .alt yearsOpt ansOpt, sp0, litS "old"] ]

/-- `sex_patterns` of `extract_tenant_info` (pattern, canonical value). -/
def sexPatterns : List (RE × String) :=
  [ -- \b(male|homme|man|masculin)\b
    (seqList [.wb, .grp (altLits ["male", "homme", "man", "masculin"]), .wb], "male"),
    -- \b(female|femme|woman|feminin)\b
    (seqList [.wb, .grp (altLits ["female", "femme", "woman", "feminin"]), .wb], "female"),
    -- i\s*am\s*(male|homme|man)
    (seqList [litS "i", sp0, litS "am", sp0, .grp (altLits ["male", "homme", "man"])], "male"),
    -- i\s*am\s*(female|femme|woman)
    (seqList [litS "i", sp0, litS "am", sp0, .grp (altLits ["female", "femme", "woman"])], "female"),
    -- sex[:\s]*(male|homme|man)
    (seqList [litS "sex", colonSp0, .grp (altLits ["male", "homme", "man"])], "male"),
    -- sex[:\s]*(female|femme|woman)
    (seqList [litS "sex", colonSp0, .grp (altLits ["female", "femme", "woman"])], "female") ]

/-- `occupation_keywords`. -/
def occupationKeywords : List String :=
  ["work as", "job", "profession", "travaille comme", "métier", "occupation",
   "i am a", "je suis", "i work", "je travaille", "employed as", "employed at"]

/-- The `end_patterns` of the occupation extraction:
`\.`, `,`, `\sand\s`, `\sbut\s`, `\salso\s`, `\splus\s`. -/
def occupationEndPatterns : List RE :=
  [ litS ".", litS ",",
    seqList [.cls Char.isWhitespace 1 (some 1), litS "and", .cls Char.isWhitespace 1 (some 1)],
    seqList [.cls Char.isWhitespace 1 (some 1), litS "but", .cls Char.isWhitespace 1 (some 1)],
    seqList [.cls Char.isWhitespace 1 (some 1), litS "also", .cls Char.isWhitespace 1 (some 1)],
    seqList [.cls Char.isWhitespace 1 (some 1), litS "plus", .cls Char.isWhitespace 1 (some 1)] ]

/-- `date_patterns`. -/
def datePatterns : List RE :=
  [ -- (?:move in|move-in|déménager|emménager|arrival|arrivée)\s+(?:on\s+)?([^,\.]+)
    seqList [altLits ["move in", "move-in", "déménager", "emménager", "arrival", "arrivée"],
      sp1, onOpt, .grp notCommaDot1],
    -- (?:want to move|veux déménager|souhaite déménager)\s+(?:on\s+)?([^,\.]+)
    seqList [altLits ["want to move", "veux déménager", "souhaite déménager"],
      sp1, onOpt, .grp notCommaDot1],
    -- (\d{1,2}(?:st|nd|rd|th)?\s+(?:january|...|december))
    .grp (seqList [digitsBetween 1 2, .opt (altLits ["st", "nd", "rd", "th"]), sp1,
      altLits ["january", "february", "march", "april", "may", "june", "july",
               "august", "september", "october", "november", "december"]]),
    -- (\d{1,2}/\d{1,2}/\d{4})
    .grp (seqList [digitsBetween 1 2, litS "/", digitsBetween 1 2, litS "/", digitsBetween 4 4]),
    -- (\d{1,2}-\d{1,2}-\d{4})
    .grp (seqList [digitsBetween 1 2, litS "-", digitsBetween 1 2, litS "-", digitsBetween 4 4]),
    -- (\d{1,2}\s+(?:jan|feb|mar|apr|may|jun|jul|aug|sep|oct|nov|dec))
    .grp (seqList [digitsBetween 1 2, sp1,
      altLits ["jan", "feb", "mar", "apr", "may", "jun", "jul", "aug", "sep", "oct", "nov", "dec"]]),
    -- (?:start|begin|commencer)\s+(?:on\s+)?([^,\.]+)
    seqList [altLits ["start", "begin", "commencer"], sp1, onOpt, .grp notCommaDot1],
    -- (?:available|disponible)\s+(?:from\s+)?([^,\.]+)
    seqList [altLits ["available", "disponible"], sp1, fromOpt, .grp notCommaDot1] ]

/-- `duration_patterns`. -/
def durationPatterns : List RE :=
  [ -- (\d+)\s*(?:months?|mois)
    seqList [.grp digits1, sp0, monthsAlt],
    -- (?:stay|rester|remain|rester)\s+(?:for\s+)?(\d+)\s*(?:months?|mois)
    seqList [altLits ["stay", "rester", "remain", "rester"], sp1, forOpt,
      .grp digits1, sp0, monthsAlt],
    -- (\d+)\s*(?:month|mois)\s*(?:lease|bail)
    seqList [.grp digits1, sp0, altLits ["month", "mois"], sp0, altLits ["lease", "bail"]],
    -- (?:duration|durée)\s*(?:of\s+)?(\d+)\s*(?:months?|mois)
    seqList [altLits ["duration", "durée"], sp0, ofOpt, .grp digits1, sp0, monthsAlt],
    -- (?:can stay|peux rester|peut rester)\s+(?:for\s+)?(\d+)\s*(?:months?|mois)
    seqList [altLits ["can stay", "peux rester", "peut rester"], sp1, forOpt,
      .grp digits1, sp0, monthsAlt],
    -- (?:minimum|minimum)\s+(\d+)\s*(?:months?|mois)
    seqList [altLits ["minimum", "minimum"], sp1, .grp digits1, sp0, monthsAlt],
    -- (?:long term|long terme)\s+(?:of\s+)?(\d+)\s*(?:months?|mois)
    seqList [altLits ["long term", "long terme"], sp1, ofOpt, .grp digits1, sp0, monthsAlt] ]

/-- `guarantor_patterns` (pattern, canonical status). -/
def guarantorPatterns : List (RE × String) :=
  [ -- \b(guarantor|garant)\b
    (seqList [.wb, .grp (altLits ["guarantor", "garant"]), .wb], "yes"),
    -- have\s+a\s+guarantor
    (seqList [litS "have", sp1, litS "a", sp1, litS "guarantor"], "yes"),
    -- ai\s+un\s+garant
    (seqList [litS "ai", sp1, litS "un", sp1, litS "garant"], "yes"),
    -- no\s+guarantor
    (seqList [litS "no", sp1, litS "guarantor"], "no"),
    -- pas\s+de\s+garant
    (seqList [litS "pas", sp1, litS "de", sp1, litS "garant"], "no"),
    -- need\s+guarantor
    (seqList [litS "need", sp1, litS "guarantor"], "need"),
    -- besoin\s+d\'un\s+garant
    (seqList [litS "besoin", sp1, .lit ("d".data ++ [apos] ++ "un".data), sp1, litS "garant"], "need"),
    -- garantie\s+visale
    (seqList [litS "garantie", sp1, litS "visale"], "visale"),
    -- visale\s+guarantee
    (seqList [litS "visale", sp1, litS "guarantee"], "visale") ]

/-- `guarantor_details_patterns` (pattern, canonical detail). -/
def guarantorDetailsPatterns : List (RE × String) :=
  [ (.grp (altLits ["father", "père", "dad", "papa"]), "father"),
    (.grp (altLits ["mother", "mère", "mom", "maman"]), "mother"),
    (.grp (altLits ["parent", "parents"]), "parent"),
    (.grp (altLits ["accountant", "comptable"]), "accountant"),
    (.grp (altLits ["employer", "employeur"]), "employer"),
    (.grp (altLits ["friend", "ami"]), "friend"),
    (.grp (altLits ["sibling", "frère", "sœur"]), "sibling") ]

/-- `viewing_patterns` (pattern, boolean interest). -/
def viewingPatterns : List (RE × Bool) :=
  [ -- (?:would like|souhaite|veux)\s+(?:to\s+)?(?:schedule|organiser)\s+(?:a\s+)?(?:viewing|visite)
    (seqList [altLits ["would like", "souhaite", "veux"], sp1, .opt (.seq (litS "to") sp1),
      altLits ["schedule", "organiser"], sp1, .opt (.seq (litS "a") sp1),
      altLits ["viewing", "visite"]], true),
    -- (?:interested in|intéressé par)\s+(?:a\s+)?(?:viewing|visite)
    (seqList [altLits ["interested in", "intéressé par"], sp1, .opt (.seq (litS "a") sp1),
      altLits ["viewing", "visite"]], true),
    -- (?:can|peux|peut)\s+(?:we\s+)?(?:schedule|organiser)\s+(?:a\s+)?(?:viewing|visite)
    (seqList [altLits ["can", "peux", "peut"], sp1, .opt (.seq (litS "we") sp1),
      altLits ["schedule", "organiser"], sp1, .opt (.seq (litS "a") sp1),
      altLits ["viewing", "visite"]], true),
    -- (?:not interested|pas intéressé)
    (altLits ["not interested", "pas intéressé"], false),
    -- (?:no viewing|pas de visite)
    (altLits ["no viewing", "pas de visite"], false) ]

/-- `availability_patterns`.  The source list mixes capture patterns with
bare keyword patterns (all plain strings, so the tuple branch of the loop
is dead); when the matched pattern has no group, the code stores the raw
pattern TEXT itself, reproduced here as the `some`-component. -/
def availabilityPatterns : List (RE × Option String) :=
  [ -- (?:available|disponible)\s+(?:on\s+)?([^,\.]+)
    (seqList [altLits ["available", "disponible"], sp1, onOpt, .grp notCommaDot1], none),
    -- (?:free|libre)\s+(?:on\s+)?([^,\.]+)
    (seqList [altLits ["free", "libre"], sp1, onOpt, .grp notCommaDot1], none),
    -- (?:can meet|peux rencontrer)\s+(?:on\s+)?([^,\.]+)
    (seqList [altLits ["can meet", "peux rencontrer"], sp1, onOpt, .grp notCommaDot1], none),
    -- (?:prefer|préfère)\s+([^,\.]+)
    (seqList [altLits ["prefer", "préfère"], sp1, .grp notCommaDot1], none),
    (altList [.seq (litS "weekend") (.opt (litS "s")), litS "week-end"],
      some "(?:weekends?|week-end)"),
    (litS "weekends", some "weekends"),
    (altList [.seq (litS "weekday") (.opt (litS "s")), litS "semaine"],
      some "(?:weekdays?|semaine)"),
    (litS "weekdays", some "weekdays"),
    (altList [.seq (litS "evening") (.opt (litS "s")), litS "soir"],
      some "(?:evenings?|soir)"),
    (litS "evenings", some "evenings"),
    (altList [.seq (litS "morning") (.opt (litS "s")), litS "matin"],
      some "(?:mornings?|matin)"),
    (litS "mornings", some "mornings") ]

/-- French / English marker words for language detection. -/
def frenchWords : List String :=
  ["bonjour", "salut", "merci", "oui", "non", "je", "suis", "veux", "peux", "avoir"]

/-- English marker words for language detection. -/
def englishWords : List String :=
  ["hello", "hi", "thanks", "yes", "no", "i", "am", "want", "can", "have"]

/-- First pattern that matches; its (mandatory) group-1 capture. -/
def tryFirstCapture (ml : List Char) : List RE → Option (List Char)
  | [] => none
  | r :: rest =>
    match reSearch r ml with
    | some (_, st) => some (st.cap.getD [])
    | none => tryFirstCapture ml rest

/-- First pattern that matches; its associated canonical value. -/
def tryFirstValue {α : Type} (ml : List Char) : List (RE × α) → Option α
  | [] => none
  | (r, v) :: rest =>
    if reTest r ml then some v else tryFirstValue ml rest

/-- The occupation keyword loop: locate the first present keyword in the
lower-cased message, slice the ORIGINAL message up to the nearest
end-pattern, strip, and accept only if longer than 2 characters;
otherwise continue with the next keyword. -/
def tryOccupation (m ml : List Char) : List String → Option String
  | [] => none
  | kw :: rest =>
    match findSubIdx kw.data ml with
    | some i =>
      let start := i + kw.length
      let tail := m.drop start
      let endRel := (occupationEndPatterns.filterMap
          (fun r => (reSearch r tail).map (·.1))).foldl
        (fun e j => if j < e then j else e) tail.length
      let occ := pyStripL (tail.take endRel)
      if 2 < occ.length then some (String.mk occ) else tryOccupation m ml rest
    | none => tryOccupation m ml rest

/-- The availability loop: first matching pattern; capture patterns store
the stripped group, bare patterns store the raw pattern text. -/
def tryAvailability (ml : List Char) : List (RE × Option String) → Option String
  | [] => none
  | (r, raw) :: rest =>
    match reSearch r ml with
    | some (_, st) =>
      match raw with
      | some t => some t
      | none => some (String.mk (pyStripL (st.cap.getD [])))
    | none => tryAvailability ml rest

/-- Language preference by French/English marker-word counts
(strictly more French → French, strictly more English → English). -/
def languagePref (ml : List Char) : Option String :=
  let fc := (frenchWords.filter (fun w => isSubL w.data ml)).length
  let ec := (englishWords.filter (fun w => isSubL w.data ml)).length
  if ec < fc then some "French"
  else if fc < ec then some "English"
  else none

/-- `extract_tenant_info` (conversation_memory.py): the rule-based
extractor.  Returns the extracted field map in dict insertion order. -/
def extract_tenant_info (message : String) : List (String × PyVal) :=
  let m := message.data
  let ml := m.map Char.toLower
  let gstatus := tryFirstValue ml guarantorPatterns
  (match tryFirstCapture ml agePatterns with
    | some cs => [("age", PyVal.pyInt (parseNatL cs))]
    | none => [])
  ++ (match tryFirstValue ml sexPatterns with
    | some s => [("sex", PyVal.pyStr s)]
    | none => [])
  ++ (match tryOccupation m ml occupationKeywords with
    | some s => [("occupation", PyVal.pyStr s)]
    | none => [])
  ++ (match tryFirstCapture ml datePatterns with
    | some cs => [("move_in_date", PyVal.pyStr (String.mk (pyStripL cs)))]
    | none => [])
  ++ (match tryFirstCapture ml durationPatterns with
    | some cs => [("rental_duration", PyVal.pyStr (String.mk cs ++ " months"))]
    | none => [])
  ++ (match gstatus with
    | some s => [("guarantor_status", PyVal.pyStr s)]
    | none => [])
  ++ (if gstatus == some "yes" then
      match tryFirstValue ml guarantorDetailsPatterns with
      | some s => [("guarantor_details", PyVal.pyStr s)]
      | none => []
    else [])
  ++ (match tryFirstValue ml viewingPatterns with
    | some b => [("viewing_interest", PyVal.pyBool b)]
    | none => [])
  ++ (match tryAvailability ml availabilityPatterns with
    | some s => [("availability", PyVal.pyStr s)]
    | none => [])
  ++ (match languagePref ml with
    | some s => [("language_preference", PyVal.pyStr s)]
    | none => [])

/-! ## The LLM-structured extractor `extract_tenant_info_llm`

The chat-model call is an oracle; the source-side confidence gating and
type conversion are modelled exactly.  Confidence floats are modelled as
rationals (only the ordering against the 0.7 threshold matters). -/

/-- `ExtractedField` pydantic model: optional value plus confidence. -/
structure ExtractedField where
  value : Option String
  confidence : Rat
  deriving DecidableEq, Repr

/-- The schema-validated LLM output (`TenantInfo`): field map (keys are
arbitrary strings chosen by the model) and holistic language signal. -/
structure TenantInfoResult where
  fields : List (String × ExtractedField)
  language_preference : Option String
  deriving DecidableEq, Repr

/-- The per-field acceptance logic of `extract_tenant_info_llm`:
confidence gate at 0.7, emptiness guard `value and value.strip()`,
and `int(value)` conversion for a digit-only `age`. -/
def processLLMField (name : String) (fd : ExtractedField) : Option PyVal :=
  if mkRat 7 10 ≤ fd.confidence then
    match fd.value with
    | some v =>
      if pyStrip v ≠ "" then
        some (if name = "age" && pyIsDigit v then .pyInt (parseNatS v) else .pyStr v)
      else none
    | none => none
  else none

/-- The result-processing loop of `extract_tenant_info_llm`: accepted
fields in order, then `language_preference` appended whenever truthy
(a later entry for the same key overrides the earlier one on merge,
matching the dict assignment). -/
def processLLMResult (r : TenantInfoResult) : List (String × PyVal) :=
  (r.fields.filterMap fun kv =>
    (processLLMField kv.1 kv.2).map fun v => (kv.1, v))
  ++ (match r.language_preference with
    | some lp => if lp ≠ "" then [("language_preference", PyVal.pyStr lp)] else []
    | none => [])

/-- `extract_tenant_info_llm`: on an available chain and successful,
schema-valid invocation (`some r`) process the structured result;
on any failure (`none`) fall back to the rule-based extractor.
The function never raises: its body is wrapped in a `try/except` that
ends in the fallback. -/
def extract_tenant_info_llm (llmOutcome : Option TenantInfoResult)
    (user_input : String) : List (String × PyVal) :=
  match llmOutcome with
  | some r => processLLMResult r
  | none => extract_tenant_info user_input

/-! ## The handoff trigger detector `detect_handoff_triggers` -/

/-- The detector's result dictionary. -/
structure HandoffTriggers where
  handoff_triggered : Bool
  handoff_reason : String
  confidence_level : String
  escalation_priority : String
  deriving DecidableEq, Repr

/-- `manual_trigger_keywords`. -/
def manualTriggerKeywords : List String :=
  ["speak to someone", "human agent", "real person", "talk to owner",
   "speak to landlord", "talk to human", "speak to manager", "contact owner",
   "speak to property owner", "talk to someone real", "human help",
   "speak with owner", "contact landlord", "speak to manager"]

/-- `emotional_keywords`. -/
def emotionalKeywords : List String :=
  ["frustrated", "angry", "upset", "disappointed", "not happy", "unhappy",
   "urgent", "emergency", "asap", "immediately", "right now", "today",
   "complicated", "complex", "difficult", "problem", "issue", "trouble"]

/-- `communication_difficulty_keywords`. -/
def difficultyKeywords : List String :=
  ["sorry", "not understand", "confused", "help",
   "don" ++ sq ++ "t understand", "can" ++ sq ++ "t understand"]

/-- Number of emotional keywords contained in the lower-cased input. -/
def emotionalMatchCount (lowInput : String) : Nat :=
  (emotionalKeywords.filter (fun k => substrB k lowInput)).length

/-- Truthiness of `profile and profile.language_preference` given the
session's language-preference state (`none` = no session id or no
profile). -/
def langStateTruthy : Option PyVal → Bool
  | some v => v.truthy
  | none => false

/-- `detect_handoff_triggers`: rule-based detection over the raw message
and the session's recorded language preference. -/
def detect_handoff_triggers (user_input : String) (profileLang : Option PyVal) :
    HandoffTriggers :=
  let t0 : HandoffTriggers :=
    { handoff_triggered := false, handoff_reason := "",
      confidence_level := "high", escalation_priority := "low" }
  let low := pyLower user_input
  let t1 :=
    match manualTriggerKeywords.find? (fun k => substrB k low) with
    | some k =>
      { t0 with handoff_triggered := true,
                handoff_reason := "Explicit request for human: " ++ sq ++ k ++ sq,
                escalation_priority := "medium" }
    | none => t0
  let t2 :=
    if 2 ≤ emotionalMatchCount low then
      { t1 with handoff_triggered := true,
                handoff_reason := "Emotional situation detected",
                escalation_priority := "high" }
    else t1
  if langStateTruthy profileLang
      && difficultyKeywords.any (fun k => substrB k low) then
    { t2 with handoff_triggered := true,
              handoff_reason := "Potential language barrier",
              escalation_priority := "medium" }
  else t2

/-! ## Sessions and the orchestrator `handle_message` -/

/-- `ConversationTurn`. -/
structure ConversationTurn where
  timestamp : String
  user_message : String
  agent_response : String
  extracted_info : List (String × PyVal)
  deriving DecidableEq, Repr

/-- One session: profile, ordered history, and the `handoff_completed`
flag (`session.get("handoff_completed", False)` — absent key modelled
as `false`). -/
structure Session where
  tenant_profile : TenantProfile
  conversation_history : List ConversationTurn
  handoff_completed : Bool
  deriving DecidableEq, Repr

/-- A fresh session as created by `get_or_create_session` on a full miss. -/
def Session.init (now : String) : Session where
  tenant_profile := TenantProfile.init now
  conversation_history := []
  handoff_completed := false

/-- `ConversationMemory.add_conversation_turn`: append an immutable turn
and set the profile's turn counter to the history length. -/
def add_conversation_turn (s : Session) (user_message agent_response : String)
    (extracted_info : List (String × PyVal)) (now : String) : Session :=
  let hist := s.conversation_history
    ++ [{ timestamp := now, user_message := user_message,
          agent_response := agent_response, extracted_info := extracted_info }]
  { s with conversation_history := hist,
           tenant_profile := { s.tenant_profile with conversation_turns := .pyInt hist.length } }

/-- `ConversationMemory.get_conversation_summary` for an existing session. -/
def get_conversation_summary (session_id : String) (s : Session) : String :=
  let p := s.tenant_profile
  let hist := s.conversation_history
  let fieldLine (v : PyVal) (label : String) : String :=
    if v.truthy then "- " ++ label ++ ": " ++ v.render ++ "\n" else ""
  "Conversation Summary (Session: " ++ session_id ++ "):\n"
    ++ "- Total turns: " ++ toString hist.length ++ "\n"
    ++ "- Last updated: " ++ p.last_updated.render ++ "\n\n"
    ++ "Collected Information:\n"
    ++ fieldLine p.age "Age"
    ++ fieldLine p.sex "Sex"
    ++ fieldLine p.occupation "Occupation"
    ++ fieldLine p.move_in_date "Move-in date"
    ++ fieldLine p.rental_duration "Rental duration"
    ++ fieldLine p.guarantor_status "Guarantor status"
    ++ fieldLine p.guarantor_details "Guarantor details"
    ++ fieldLine p.viewing_interest "Viewing interest"
    ++ fieldLine p.availability "Availability"
    ++ (if hist.isEmpty then ""
      else "\nRecent conversation context:\n"
        ++ String.join ((hist.drop (hist.length - 3)).map fun t =>
          "- User: " ++ t.user_message.take 100 ++ "...\n"
            ++ "- Agent: " ++ t.agent_response.take 100 ++ "...\n"))

/-- `str(e)` of the `TypeError` raised by the call
`get_missing_information(session_id, min_threshold=3)` at
agent.py:451 — the callee's signature is `(self, session_id)` and
accepts no such keyword.  (CPython ≥ 3.10 text; older versions omit the
`ConversationMemory.` qualifier.) -/
def minThresholdTypeError : String :=
  "ConversationMemory.get_missing_information() got an unexpected keyword argument "
    ++ sq ++ "min_threshold" ++ sq

/-- Python call semantics for `get_missing_information`: the source call
site passes the extra keyword `min_threshold`, to which the interpreter
responds with a `TypeError` before the body runs. -/
def callGetMissingInfo (p : TenantProfile) (extraKeywords : List String) :
    Except String (List String) :=
  match extraKeywords with
  | [] => .ok (missingInformation p)
  | kw :: _ =>
    .error ("ConversationMemory.get_missing_information() got an unexpected keyword argument "
      ++ sq ++ kw ++ sq)

/-- The test-mode reply returned when the OpenAI key is not configured. -/
def testModeMessage : String :=
  "Hello! I" ++ sq ++ "m the Rental Genie. I" ++ sq ++ "m currently in test mode. "
    ++ "In a real setup, I would help you with rental inquiries. Please set up your "
    ++ "OPENAI_API_KEY environment variable to enable full functionality."

/-- The fixed closing text for an already-handed-off session. -/
def closingMessage : String :=
  "I" ++ sq ++ "ve connected you with the property owner. They will be in touch "
    ++ "with you shortly to assist with your inquiry."

/-- The top-level `except` reply: fixed apology with `str(e)` appended. -/
def errorReply (e : String) : String :=
  "I" ++ sq ++ "m having trouble processing your request right now. Error: " ++ e

/-- The fixed handoff reply when the agent JSON supplies no summary. -/
def fixedHandoffReply : String :=
  "Thank you for your inquiry. The property owner will be in touch with you "
    ++ "shortly to assist with your specific needs."

/-- The handoff reply built around an agent-supplied summary. -/
def summaryHandoffReply (summ : String) : String :=
  "Thank you for your inquiry. " ++ summ
    ++ " The property owner will be in touch with you shortly to assist with "
    ++ "your specific needs."

/-- The warning appended when interest is shown but no real property data
exists. -/
def noPropertyWarning : String :=
  "\n\n⚠️  IMPORTANT: No real property data available in database. Inform user "
    ++ "that property information is currently unavailable and suggest they "
    ++ "contact the property owner directly."

/-- `interest_keywords` of `handle_message`. -/
def interestKeywords : List String :=
  ["intéressé", "interested", "chambre", "room", "colocation", "available",
   "disponible", "louer", "rent", "location"]

/-- Outcomes of the external collaborators consumed by one
`handle_message` call:
* `llmOutcome`  — the structured-extraction chain invocation
  (`none` = unavailable chain, request failure or schema violation,
  which fall back to the rule-based extractor);
* `predictResult` — `chain.predict(...)`: reply text, or the exception
  message if the reply generation raises;
* `jsonData`   — the dict parsed by `extract_json_from_response`
  (string-valued view; `[]` when no JSON block parses);
* `jsonSpan`   — the regex-matched JSON substring, used for removal
  from the reply (meaningful only when `jsonData` is non-empty);
* `propertyAddendum` — the context line appended by the property-filter
  block when real property data is present (that block parses external
  JSON and appends one of two strings; its outcome is treated as an
  oracle because no claim depends on it and the block is unreachable in
  every execution, see the theorems below);
* `basePrompt` — `get_system_prompt(property_data, prompt_version)`. -/
structure Oracle where
  llmOutcome : Option TenantInfoResult
  predictResult : Except String String
  jsonData : List (String × String)
  jsonSpan : String
  propertyAddendum : String
  basePrompt : String

/-- The tail of `handle_message` from the interest check onwards: context
finalisation, reply generation, handoff detection and either handoff
finalisation or turn append.  `st` is the current session keyed state
(`none` when no `session_id` was supplied). -/
def handleAfterContext (o : Oracle) (user_input property_data now : String)
    (st : Option (String × Session)) (ctx0 : String) : String × Option Session :=
  let lowInput := pyLower user_input
  let showsInterest := interestKeywords.any (fun k => substrB k lowInput)
  let ctx :=
    if showsInterest && ctx0 ≠ "" then
      if property_data = "" || pyStrip property_data = "[]"
          || substrB "Sample Property" property_data then
        ctx0 ++ noPropertyWarning
      else ctx0 ++ o.propertyAddendum
    else ctx0
  -- enhanced prompt construction (consumed only by the reply oracle)
  let _enhanced :=
    if ctx ≠ "" then
      o.basePrompt ++ "\n\nCONVERSATION CONTEXT:\n" ++ ctx
        ++ "\n\nUse this context to provide personalized responses and avoid asking for information already provided."
    else o.basePrompt
  match o.predictResult with
  | .error e => (errorReply e, st.map (·.2))
  | .ok response =>
    let triggers := detect_handoff_triggers user_input
      (st.map (fun p => p.2.tenant_profile.language_preference))
    let jsonTrig :=
      pyLower ((o.jsonData.lookup "handoff_triggered").getD "false") = "true"
    let handoffTriggered := triggers.handoff_triggered || jsonTrig
    match st, handoffTriggered with
    | some (_, s), true =>
      let s2 := { s with handoff_completed := true }
      let reply :=
        match o.jsonData.lookup "summary" with
        | some summ => if summ ≠ "" then summaryHandoffReply summ else fixedHandoffReply
        | none => fixedHandoffReply
      (reply, some s2)
    | _, _ =>
      let st2 := st.map fun p =>
        add_conversation_turn p.2 user_input response
          (extract_tenant_info_llm o.llmOutcome user_input) now
      let clean :=
        if o.jsonData.isEmpty then response
        else pyStrip (response.replace o.jsonSpan "")
      (clean, st2)

/-- `handle_message` (agent.py): the orchestration entry point.
`llmAvailable` is the cached `get_llm()` availability; `sessionOpt` is
the session-id / current-session pair (`none` when the caller passes no
session id; `get_or_create_session` resolves an id to the given state).
Returns the reply together with the session state after the call.

New-session and handoff notifications swallow their own exceptions and
do not affect session state, so they do not appear.  The two exception
sources inside the top-level `try` are the `min_threshold` call
(modelled by `callGetMissingInfo`) and `chain.predict`
(`o.predictResult`); both are converted to `errorReply` exactly as the
top-level handler does, leaving the mutations already performed in
place. -/
def handle_message (llmAvailable : Bool) (o : Oracle)
    (user_input property_data now : String)
    (sessionOpt : Option (String × Session)) : String × Option Session :=
  if !llmAvailable then (testModeMessage, sessionOpt.map (·.2))
  else
    match sessionOpt with
    | some (sid, s) =>
      if s.handoff_completed then (closingMessage, some s)
      else
        let extracted := extract_tenant_info_llm o.llmOutcome user_input
        -- (new-session notification: external, state-free)
        let s1 :=
          if extracted.isEmpty then s
          else { s with tenant_profile := update_tenant_profile s.tenant_profile extracted now }
        let ctx := get_conversation_summary sid s1
        match callGetMissingInfo s1.tenant_profile ["min_threshold"] with
        | .error e => (errorReply e, some s1)
        | .ok missing =>
          let ctx :=
            if missing.isEmpty then ctx
            else ctx ++ "\n\nMissing required information: " ++ String.intercalate ", " missing
          handleAfterContext o user_input property_data now (some (sid, s1)) ctx
    | none =>
      handleAfterContext o user_input property_data now none ""

/-- Modelled from the spec: the greeting allow-list of §4.4 rule 1
(hello/hi/bonjour/salut); no such list exists in the source detector,
which reaches the same exclusion by having no matching trigger rule. -/
def greetingAllowList : List String := ["hello", "hi", "bonjour", "salut"]

/-- A sequence of merges (update payload and timestamp per step). -/
def mergeSteps (p : TenantProfile) (steps : List (List (String × PyVal) × String)) :
    TenantProfile :=
  steps.foldl (fun q su => update_tenant_profile q su.1 su.2) p

/-- The session state after the merge step of a session-path
`handle_message` call (the state at which the `min_threshold`
`TypeError` fires). -/
def mergedSession (o : Oracle) (user_input now : String) (s : Session) : Session :=
  let extracted := extract_tenant_info_llm o.llmOutcome user_input
  if extracted.isEmpty then s
  else { s with tenant_profile := update_tenant_profile s.tenant_profile extracted now }

/-! ## Support lemmas -/

/-- A value that is neither `None` nor the empty string. -/
def nonEmptyVal (v : PyVal) : Prop := v ≠ .pyNone ∧ v ≠ .pyStr ""

instance (v : PyVal) : Decidable (nonEmptyVal v) := by
  unfold nonEmptyVal; infer_instance

/-- The optional extraction field keys ("sets only optional fields" in
the claims is phrased over these). -/
def optionalFieldKeys : List String :=
  ["viewing_interest", "availability", "language_preference", "guarantor_details"]

/-- The field names the extractors are specified to emit (the prompt's
seven fields plus the rule-based extras); `status` is not among them. -/
def extractionFieldKeys : List String :=
  ["age", "sex", "occupation", "move_in_date", "rental_duration",
   "guarantor_status", "guarantor_details", "viewing_interest",
   "availability", "language_preference"]

theorem setF_status (p : TenantProfile) (fld : PField) (v : PyVal) :
    (setF p fld v).status = p.status := by
  cases fld <;> rfl

theorem setM_status (p : TenantProfile) (m : MetaField) (v : PyVal)
    (hm : m ≠ .status) : (setM p m v).status = p.status := by
  cases m <;> first | rfl | exact absurd rfl hm

theorem metaAttrOf_eq_status {k : String} (h : metaAttrOf k = some .status) :
    k = "status" := by
  unfold metaAttrOf at h
  split_ifs at h with h1 h2 h3 h4 h5 h6 h7
  · exact h1
  all_goals simp_all

/-- A `setattr` with any key other than `"status"` leaves the status
unchanged. -/
theorem setFieldByName_status (p : TenantProfile) (k : String) (v : PyVal)
    (hk : k ≠ "status") : (setFieldByName p k v).status = p.status := by
  unfold setFieldByName
  cases h : attrOf k with
  | some fld => exact setF_status p fld v
  | none =>
    cases hm : metaAttrOf k with
    | none => rfl
    | some m =>
      refine setM_status p m v ?_
      intro he
      subst he
      exact hk (metaAttrOf_eq_status hm)

theorem applyUpdates_status (u : List (String × PyVal)) (p : TenantProfile)
    (hu : ∀ kv ∈ u, kv.1 ≠ "status") :
    (applyUpdates p u).status = p.status := by
  induction u generalizing p with
  | nil => rfl
  | cons kv rest ih =>
    have h1 : kv.1 ≠ "status" := hu kv (by simp)
    have h2 : ∀ kv2 ∈ rest, kv2.1 ≠ "status" := fun kv2 hm => hu kv2 (by simp [hm])
    have hs : applyUpdates p (kv :: rest)
        = applyUpdates (setFieldByName p kv.1 kv.2) rest := rfl
    rw [hs, ih _ h2, setFieldByName_status p kv.1 kv.2 h1]

theorem requiredComplete_meta (p : TenantProfile) (a n : PyVal) :
    requiredComplete { p with last_updated := a, conversation_turns := n }
      = requiredComplete p := rfl

theorem requiredComplete_status (p : TenantProfile) (σ : PyVal) :
    requiredComplete { p with status := σ } = requiredComplete p := rfl

/-- `requiredComplete` after a merge equals that of the raw field merge:
the metadata refresh and the status write do not touch the six fields. -/
theorem requiredComplete_update (p : TenantProfile) (u : List (String × PyVal))
    (now : String) :
    requiredComplete (update_tenant_profile p u now)
      = requiredComplete (applyUpdates p u) := by
  unfold update_tenant_profile
  dsimp only
  split <;> rfl

/-- The status written by one merge, as a function of the raw field merge. -/
theorem update_status_eq (p : TenantProfile) (u : List (String × PyVal))
    (now : String) :
    (update_tenant_profile p u now).status =
      if (requiredComplete (applyUpdates p u)
            && ((applyUpdates p u).status.eqStr "prospect")) = true
      then .pyStr "qualified" else (applyUpdates p u).status := by
  unfold update_tenant_profile
  dsimp only
  by_cases hb : (requiredComplete (applyUpdates p u)
      && ((applyUpdates p u).status.eqStr "prospect")) = true
  · rw [if_pos hb]
    have hb2 : shouldAutoQualify
        { applyUpdates p u with
            last_updated := .pyStr now,
            conversation_turns := pyIncr (applyUpdates p u).conversation_turns } = true := hb
    rw [if_pos hb2]
  · rw [if_neg hb]
    have hb2 : ¬ shouldAutoQualify
        { applyUpdates p u with
            last_updated := .pyStr now,
            conversation_turns := pyIncr (applyUpdates p u).conversation_turns } = true := hb
    rw [if_neg hb2]

/-- The status written by one merge from a `prospect` profile, when the
update map does not itself write `status`: `qualified` exactly when the
merged fields are complete. -/
theorem update_status_qualified_iff (p : TenantProfile) (u : List (String × PyVal))
    (now : String) (h : p.status = .pyStr "prospect")
    (hu : ∀ kv ∈ u, kv.1 ≠ "status") :
    (update_tenant_profile p u now).status = .pyStr "qualified"
      ↔ requiredComplete (applyUpdates p u) = true := by
  rw [update_status_eq, applyUpdates_status u p hu, h]
  by_cases hrc : requiredComplete (applyUpdates p u) = true
  · simp [hrc, PyVal.eqStr]
  · simp only [Bool.not_eq_true] at hrc
    simp [hrc, PyVal.eqStr, show ("prospect" : String) ≠ "qualified" by decide]

/-- A `qualified` profile never leaves `qualified` through a merge whose
update map does not itself write `status`. -/
theorem update_status_of_qualified (p : TenantProfile) (u : List (String × PyVal))
    (now : String) (h : p.status = .pyStr "qualified")
    (hu : ∀ kv ∈ u, kv.1 ≠ "status") :
    (update_tenant_profile p u now).status = .pyStr "qualified" := by
  rw [update_status_eq, applyUpdates_status u p hu, h]
  simp [PyVal.eqStr, show (("qualified" : String) == "prospect") = false by decide]

theorem getF_setF (p : TenantProfile) (a : PField) (v : PyVal) (b : PField) :
    getF (setF p a v) b = if a = b then v else getF p b := by
  cases a <;> cases b <;> simp [getF, setF]

theorem getF_setM (p : TenantProfile) (m : MetaField) (v : PyVal) (b : PField) :
    getF (setM p m v) b = getF p b := by
  cases m <;> cases b <;> rfl

theorem getF_setFieldByName (p : TenantProfile) (k : String) (v : PyVal) (b : PField) :
    getF (setFieldByName p k v) b = v ∨ getF (setFieldByName p k v) b = getF p b := by
  unfold setFieldByName
  cases h : attrOf k with
  | some fld =>
    rw [getF_setF]
    by_cases hab : fld = b
    · simp [hab]
    · simp [hab]
  | none =>
    cases hm : metaAttrOf k with
    | some m => exact Or.inr (getF_setM p m v b)
    | none => exact Or.inr rfl

/-- A merge whose values are all non-empty never resets a non-empty
field to `None` or the empty string. -/
theorem applyUpdates_nonEmpty (u : List (String × PyVal)) (p : TenantProfile)
    (f : PField) (hvals : ∀ kv ∈ u, nonEmptyVal kv.2)
    (hp : nonEmptyVal (getF p f)) :
    nonEmptyVal (getF (applyUpdates p u) f) := by
  induction u generalizing p with
  | nil => exact hp
  | cons kv rest ih =>
    have hkv : nonEmptyVal kv.2 := hvals kv (by simp)
    have hrest : ∀ kv2 ∈ rest, nonEmptyVal kv2.2 := fun kv2 h2 => hvals kv2 (by simp [h2])
    refine ih (setFieldByName p kv.1 kv.2) hrest ?_
    rcases getF_setFieldByName p kv.1 kv.2 f with h | h
    · rw [h]; exact hkv
    · rw [h]; exact hp

theorem getF_meta (p : TenantProfile) (a n : PyVal) (f : PField) :
    getF { p with last_updated := a, conversation_turns := n } f = getF p f := by
  cases f <;> rfl

theorem getF_status_set (p : TenantProfile) (σ : PyVal) (f : PField) :
    getF { p with status := σ } f = getF p f := by
  cases f <;> rfl

theorem getF_update (p : TenantProfile) (u : List (String × PyVal)) (now : String)
    (f : PField) :
    getF (update_tenant_profile p u now) f = getF (applyUpdates p u) f := by
  unfold update_tenant_profile
  dsimp only
  split <;> (cases f <;> rfl)

/-- Every value emitted by the LLM post-processing is non-empty:
accepted strings survive the `value and value.strip()` guard, the age
conversion yields an integer, and the language signal is only appended
when truthy. -/
theorem processLLMResult_nonEmpty (r : TenantInfoResult) :
    ∀ kv ∈ processLLMResult r, nonEmptyVal kv.2 := by
  intro kv hkv
  unfold processLLMResult at hkv
  rcases List.mem_append.mp hkv with h | h
  · rcases List.mem_filterMap.mp h with ⟨kv0, _, hmap⟩
    rcases Option.map_eq_some'.mp hmap with ⟨v, hv, hkv'⟩
    subst hkv'
    unfold processLLMField at hv
    by_cases hc : mkRat 7 10 ≤ kv0.2.confidence
    · simp only [if_pos hc] at hv
      cases hval : kv0.2.value with
      | none => rw [hval] at hv; cases hv
      | some s =>
        rw [hval] at hv
        by_cases hs : pyStrip s ≠ ""
        · simp only [if_pos hs] at hv
          have hne : s ≠ "" := by
            intro he; subst he; exact hs rfl
          cases hv
          split <;> exact ⟨by simp, by simp [hne]⟩
        · simp only [if_neg hs] at hv; cases hv
    · simp only [if_neg hc] at hv; cases hv
  · cases hlpv : r.language_preference with
    | none => rw [hlpv] at h; cases h
    | some lp =>
      rw [hlpv] at h
      by_cases hlp : lp ≠ ""
      · simp only [if_pos hlp] at h
        have hkv1 := List.mem_singleton.mp h
        subst hkv1
        exact ⟨by simp, by simp [hlp]⟩
      · simp only [if_neg hlp] at h; cases h

/-- Optional-field writes leave the six required fields untouched. -/
theorem requiredComplete_setFieldByName_optional (p : TenantProfile) (k : String)
    (v : PyVal) (hk : k ∈ optionalFieldKeys) :
    requiredComplete (setFieldByName p k v) = requiredComplete p := by
  simp only [optionalFieldKeys, List.mem_cons, List.not_mem_nil, or_false] at hk
  rcases hk with h | h | h | h <;> subst h <;> rfl

theorem requiredComplete_applyUpdates_optional (u : List (String × PyVal))
    (p : TenantProfile) (hk : ∀ kv ∈ u, kv.1 ∈ optionalFieldKeys) :
    requiredComplete (applyUpdates p u) = requiredComplete p := by
  induction u generalizing p with
  | nil => rfl
  | cons kv rest ih =>
    have h1 : kv.1 ∈ optionalFieldKeys := hk kv (by simp)
    have h2 : ∀ kv2 ∈ rest, kv2.1 ∈ optionalFieldKeys := fun kv2 hm => hk kv2 (by simp [hm])
    calc requiredComplete (applyUpdates (setFieldByName p kv.1 kv.2) rest)
        = requiredComplete (setFieldByName p kv.1 kv.2) := ih _ h2
      _ = requiredComplete p := requiredComplete_setFieldByName_optional p kv.1 kv.2 h1

theorem extractionFieldKeys_ne_status {k : String} (hk : k ∈ extractionFieldKeys) :
    k ≠ "status" := by
  simp only [extractionFieldKeys, List.mem_cons, List.not_mem_nil, or_false] at hk
  rcases hk with h | h | h | h | h | h | h | h | h | h <;> subst h <;> decide

theorem optionalFieldKeys_ne_status {k : String} (hk : k ∈ optionalFieldKeys) :
    k ≠ "status" := by
  simp only [optionalFieldKeys, List.mem_cons, List.not_mem_nil, or_false] at hk
  rcases hk with h | h | h | h <;> subst h <;> decide

theorem mergeSteps_qualified_persist (steps : List (List (String × PyVal) × String))
    (p : TenantProfile) (h : p.status = .pyStr "qualified")
    (hsteps : ∀ su ∈ steps, ∀ kv ∈ su.1, kv.1 ≠ "status") :
    (mergeSteps p steps).status = .pyStr "qualified" := by
  induction steps generalizing p with
  | nil => exact h
  | cons su rest ih =>
    exact ih _
      (update_status_of_qualified p su.1 su.2 h (hsteps su (by simp)))
      (fun su2 hm => hsteps su2 (by simp [hm]))

/-- Starting from a `prospect` profile with incomplete required fields,
a sequence of merges none of which writes `status` directly reaches
`qualified` exactly when some non-empty prefix of it completes the six
required fields. -/
theorem mergeSteps_qualified_iff (steps : List (List (String × PyVal) × String))
    (p : TenantProfile) (h : p.status = .pyStr "prospect")
    (h0 : requiredComplete p = false)
    (hsteps : ∀ su ∈ steps, ∀ kv ∈ su.1, kv.1 ≠ "status") :
    (mergeSteps p steps).status = .pyStr "qualified"
      ↔ ∃ n, 0 < n ∧ requiredComplete (mergeSteps p (steps.take n)) = true := by
  induction steps generalizing p with
  | nil =>
    constructor
    · intro hq
      rw [show mergeSteps p [] = p from rfl, h] at hq
      exact absurd hq (by decide)
    · rintro ⟨n, -, hrc⟩
      rw [List.take_nil, show mergeSteps p [] = p from rfl, h0] at hrc
      cases hrc
    | cons su rest ih =>
    have hu : ∀ kv ∈ su.1, kv.1 ≠ "status" := hsteps su (by simp)
    have hrest : ∀ su2 ∈ rest, ∀ kv ∈ su2.1, kv.1 ≠ "status" :=
      fun su2 hm => hsteps su2 (by simp [hm])
    have hcons : mergeSteps p (su :: rest) = mergeSteps (update_tenant_profile p su.1 su.2) rest := rfl
    by_cases hrc1 : requiredComplete (applyUpdates p su.1) = true
    · -- the first merge completes the profile and fires the transition
      have hq1 : (update_tenant_profile p su.1 su.2).status = .pyStr "qualified" :=
        (update_status_qualified_iff p su.1 su.2 h hu).mpr hrc1
      constructor
      · intro _
        refine ⟨1, Nat.one_pos, ?_⟩
        rw [show (su :: rest).take 1 = [su] from rfl,
          show mergeSteps p [su] = update_tenant_profile p su.1 su.2 from rfl,
          requiredComplete_update]
        exact hrc1
      · intro _
        rw [hcons]
        exact mergeSteps_qualified_persist rest _ hq1 hrest
    · -- the first merge does not fire; recurse
      have hrc1f : requiredComplete (applyUpdates p su.1) = false := by
        simpa using hrc1
      have hq1 : (update_tenant_profile p su.1 su.2).status = .pyStr "prospect" := by
        rw [update_status_eq, applyUpdates_status su.1 p hu, h, hrc1f]
        simp
      have hrcu : requiredComplete (update_tenant_profile p su.1 su.2) = false := by
        rw [requiredComplete_update]; exact hrc1f
      rw [hcons, ih _ hq1 hrcu hrest]
      constructor
      · rintro ⟨n, hn, hrc⟩
        refine ⟨n + 1, Nat.succ_pos n, ?_⟩
        rw [show (su :: rest).take (n + 1) = su :: rest.take n from rfl,
          show mergeSteps p (su :: rest.take n)
            = mergeSteps (update_tenant_profile p su.1 su.2) (rest.take n) from rfl]
        exact hrc
      · rintro ⟨n, hn, hrc⟩
        cases n with
        | zero => cases hn
        | succ m =>
          rw [show (su :: rest).take (m + 1) = su :: rest.take m from rfl,
            show mergeSteps p (su :: rest.take m)
              = mergeSteps (update_tenant_profile p su.1 su.2) (rest.take m) from rfl] at hrc
          cases m with
          | zero =>
            rw [List.take_zero, show mergeSteps (update_tenant_profile p su.1 su.2) []
              = update_tenant_profile p su.1 su.2 from rfl, hrcu] at hrc
            cases hrc
          | succ j => exact ⟨j + 1, Nat.succ_pos j, hrc⟩

/-- Every `handle_message` call carrying a session id and a live
(non-handed-off) session raises the `min_threshold` `TypeError` while
building the context — after the profile merge, before reply
generation.  The top-level handler converts it into the apologetic
reply; the merge persists. -/
theorem handle_message_session_result (o : Oracle) (ui pd now sid : String)
    (s : Session) (h : s.handoff_completed = false) :
    handle_message true o ui pd now (some (sid, s)) =
      (errorReply minThresholdTypeError, some (mergedSession o ui now s)) := by
  unfold handle_message
  have hne : ¬ (s.handoff_completed = true) := by rw [h]; exact Bool.false_ne_true
  simp only [Bool.not_true, Bool.false_eq_true, if_false, if_neg hne]
  rfl

/-- The same statement, split into the components used by the claims. -/
theorem mergedSession_history (o : Oracle) (ui now : String) (s : Session) :
    (mergedSession o ui now s).conversation_history = s.conversation_history := by
  unfold mergedSession
  dsimp only
  split <;> rfl

theorem mergedSession_handoff (o : Oracle) (ui now : String) (s : Session) :
    (mergedSession o ui now s).handoff_completed = s.handoff_completed := by
  unfold mergedSession
  dsimp only
  split <;> rfl

/-- If no trigger rule fires (no manual keyword, fewer than two
emotional keywords, no difficulty keyword) the detector returns its
initial all-clear record, whatever the session state. -/
theorem detect_no_triggers (msg : String) (lang : Option PyVal)
    (hman : manualTriggerKeywords.find? (fun k => substrB k (pyLower msg)) = none)
    (hemo : emotionalMatchCount (pyLower msg) < 2)
    (hdif : difficultyKeywords.any (fun k => substrB k (pyLower msg)) = false) :
    detect_handoff_triggers msg lang =
      { handoff_triggered := false, handoff_reason := "",
        confidence_level := "high", escalation_priority := "low" } := by
  unfold detect_handoff_triggers
  dsimp only
  rw [hman, hdif, if_neg (Nat.not_le.mpr hemo)]
  simp

/-! ## Claims -/

/-- Claim C1: the spec says the context passed to reply generation
includes the missing-field list exactly when 3 or more of the six
required fields are missing, and that the call completes normally in
both cases.  The code intends this (`min_threshold=3`, and the comment
"only if more than 2 fields missing") but the callee's signature takes
no such keyword, so every session-path call dies in a `TypeError`
before reply generation: the result is the apologetic error reply, for
EVERY reply-generation outcome `pr` (showing the reply oracle is never
consulted and no context is ever delivered). -/
theorem C1_min_threshold_call_crashes (o : Oracle) (pr : Except String String)
    (ui pd now sid : String) (s : Session) (h : s.handoff_completed = false) :
    (handle_message true o ui pd now (some (sid, s))).1 = errorReply minThresholdTypeError
    ∧ handle_message true { o with predictResult := pr } ui pd now (some (sid, s))
        = handle_message true o ui pd now (some (sid, s)) := by
  constructor
  · rw [handle_message_session_result o ui pd now sid s h]
  · rw [handle_message_session_result o ui pd now sid s h,
      handle_message_session_result { o with predictResult := pr } ui pd now sid s h]
    rfl

/-- Witness for C1: a concrete live-session call returns the
`min_threshold` TypeError apology. -/
theorem C1_min_threshold_call_crashes_witness :
    (handle_message true ⟨some ⟨[], none⟩, .ok "All good!", [], "", "", ""⟩
      "hello" "[]" "t1" (some ("s1", Session.init "t0"))).1
      = errorReply minThresholdTypeError :=
  (C1_min_threshold_call_crashes ⟨some ⟨[], none⟩, .ok "All good!", [], "", "", ""⟩
    (.error "boom") "hello" "[]" "t1" "s1" (Session.init "t0") rfl).1

/-- Counterexample to C2: a concrete call in which extraction yields
`age = 25`: the call returns the apologetic message, yet the session's
profile now holds `age = 25` whereas it held `None` before the call —
the state is NOT identical to its pre-call state. -/
theorem C2_partial_merge_persists_cex :
    (handle_message true ⟨some ⟨[("age", ⟨some "25", mkRat 9 10⟩)], none⟩,
        .ok "Hi!", [], "", "", ""⟩
      "hello" "[]" "t1" (some ("s1", Session.init "t0"))).1
      = errorReply minThresholdTypeError
    ∧ ((handle_message true ⟨some ⟨[("age", ⟨some "25", mkRat 9 10⟩)], none⟩,
        .ok "Hi!", [], "", "", ""⟩
      "hello" "[]" "t1" (some ("s1", Session.init "t0"))).2.map
        (fun s => s.tenant_profile.age)) = some (.pyInt 25)
    ∧ (Session.init "t0").tenant_profile.age = .pyNone := by
  refine ⟨?_, ?_, rfl⟩ <;> decide

/-- Claim C2 amended: an exception inside `handle_message` is caught and
converted into the user-visible apologetic message and no conversation
turn is appended and the handoff flag is untouched, BUT the session
state is not rolled back: a profile merge performed before the failing
step persists. -/
theorem C2_failure_keeps_merge (o : Oracle) (ui pd now sid : String) (s : Session)
    (h : s.handoff_completed = false) :
    handle_message true o ui pd now (some (sid, s))
      = (errorReply minThresholdTypeError, some (mergedSession o ui now s))
    ∧ (mergedSession o ui now s).conversation_history = s.conversation_history
    ∧ (mergedSession o ui now s).handoff_completed = false := by
  refine ⟨handle_message_session_result o ui pd now sid s h,
    mergedSession_history o ui now s, ?_⟩
  rw [mergedSession_handoff o ui now s, h]

/-- Witness for C2 (amended form) at a concrete live session. -/
theorem C2_failure_keeps_merge_witness :
    handle_message true ⟨some ⟨[("age", ⟨some "31", mkRat 4 5⟩)], none⟩,
        .ok "Sure!", [], "", "", ""⟩ "hey" "[]" "t2" (some ("s2", Session.init "t0"))
      = (errorReply minThresholdTypeError,
        some (mergedSession ⟨some ⟨[("age", ⟨some "31", mkRat 4 5⟩)], none⟩,
          .ok "Sure!", [], "", "", ""⟩ "hey" "t2" (Session.init "t0")))
    ∧ (mergedSession ⟨some ⟨[("age", ⟨some "31", mkRat 4 5⟩)], none⟩,
        .ok "Sure!", [], "", "", ""⟩ "hey" "t2" (Session.init "t0")).conversation_history
      = (Session.init "t0").conversation_history
    ∧ (mergedSession ⟨some ⟨[("age", ⟨some "31", mkRat 4 5⟩)], none⟩,
        .ok "Sure!", [], "", "", ""⟩ "hey" "t2" (Session.init "t0")).handoff_completed
      = false :=
  C2_failure_keeps_merge _ "hey" "[]" "t2" "s2" (Session.init "t0") rfl

/-- Counterexample to C3: a concrete call whose reply contains the
literal TypeError text — internal error text IS exposed to the
tenant-facing channel. -/
theorem C3_error_text_in_reply_cex :
    substrB "got an unexpected keyword argument"
      (handle_message true ⟨some ⟨[], none⟩, .ok "Hello there!", [], "", "", ""⟩
        "hi there" "[]" "t1" (some ("s3", Session.init "t0"))).1 = true
    ∧ (handle_message true ⟨some ⟨[], none⟩, .ok "Hello there!", [], "", "", ""⟩
        "hi there" "[]" "t1" (some ("s3", Session.init "t0"))).1
      = errorReply minThresholdTypeError := by
  constructor <;> decide

/-- Claim C3 amended: the degraded response is the fixed apologetic
prefix followed by `str(e)` — so the exception's message text IS
surfaced in the reply (no stack trace is included). -/
theorem C3_degraded_reply_embeds_error (o : Oracle) (ui pd now sid : String)
    (s : Session) (h : s.handoff_completed = false) :
    (handle_message true o ui pd now (some (sid, s))).1
      = errorReply minThresholdTypeError
    ∧ substrB "got an unexpected keyword argument"
        ((handle_message true o ui pd now (some (sid, s))).1) = true
    ∧ substrB "Traceback"
        ((handle_message true o ui pd now (some (sid, s))).1) = false := by
  have h1 : (handle_message true o ui pd now (some (sid, s))).1
      = errorReply minThresholdTypeError := by
    rw [handle_message_session_result o ui pd now sid s h]
  refine ⟨h1, ?_, ?_⟩ <;> rw [h1] <;> decide

/-- Witness for C3 (amended form) at a concrete live session. -/
theorem C3_degraded_reply_embeds_error_witness :
    (handle_message true ⟨none, .ok "Bonjour!", [], "", "", ""⟩
      "bonjour" "[]" "t3" (some ("s3b", Session.init "t0"))).1
      = errorReply minThresholdTypeError
    ∧ substrB "got an unexpected keyword argument"
        ((handle_message true ⟨none, .ok "Bonjour!", [], "", "", ""⟩
          "bonjour" "[]" "t3" (some ("s3b", Session.init "t0"))).1) = true
    ∧ substrB "Traceback"
        ((handle_message true ⟨none, .ok "Bonjour!", [], "", "", ""⟩
          "bonjour" "[]" "t3" (some ("s3b", Session.init "t0"))).1) = false :=
  C3_degraded_reply_embeds_error _ "bonjour" "[]" "t3" "s3b" (Session.init "t0") rfl

/-- Counterexample to C4: a non-numeric age value at confidence 0.9 is
NOT dropped — it is passed through unchanged as a string. -/
theorem C4_nonnumeric_age_not_dropped_cex :
    processLLMResult ⟨[("age", ⟨some "twenty-five", mkRat 9 10⟩)], none⟩
      = [("age", .pyStr "twenty-five")]
    ∧ processLLMField "age" ⟨some "twenty-five", mkRat 9 10⟩ ≠ none := by
  constructor <;> decide

/-- Claim C4 amended: for an age reported at confidence ≥ 0.70 with a
non-blank value, a digit-only value is converted to an integer, and a
non-numeric value is passed through unchanged as a string (not
dropped); only a blank value is dropped. -/
theorem C4_age_conversion (v : String) (c : Rat) (hc : mkRat 7 10 ≤ c) :
    (pyStrip v ≠ "" → pyIsDigit v = true →
        processLLMField "age" ⟨some v, c⟩ = some (.pyInt (parseNatS v)))
    ∧ (pyStrip v ≠ "" → pyIsDigit v = false →
        processLLMField "age" ⟨some v, c⟩ = some (.pyStr v))
    ∧ (pyStrip v = "" → processLLMField "age" ⟨some v, c⟩ = none) := by
  unfold processLLMField
  rw [if_pos hc]
  dsimp only
  refine ⟨?_, ?_, ?_⟩
  · intro hs hd
    rw [if_pos hs]
    simp [hd]
  · intro hs hd
    rw [if_pos hs]
    simp [hd]
  · intro hs
    rw [if_neg (by simp [hs])]

/-- Witness for C4 (amended form): "25" converts, "abc" passes through,
" " is dropped. -/
theorem C4_age_conversion_witness :
    processLLMField "age" ⟨some "25", mkRat 3 4⟩ = some (.pyInt 25)
    ∧ processLLMField "age" ⟨some "abc", mkRat 3 4⟩ = some (.pyStr "abc")
    ∧ processLLMField "age" ⟨some " ", mkRat 3 4⟩ = none :=
  ⟨(C4_age_conversion "25" (mkRat 3 4) (by decide)).1 (by decide) (by decide),
   (C4_age_conversion "abc" (mkRat 3 4) (by decide)).2.1 (by decide) (by decide),
   (C4_age_conversion " " (mkRat 3 4) (by decide)).2.2 (by decide)⟩

/-- Counterexample to C5: the rule-based extractor on the message
`"available  ,"` captures a whitespace-only span and yields
`move_in_date = ""`; merging it over a profile whose `move_in_date` was
the non-empty `"June 2024"` resets that field to the empty string. -/
theorem C5_empty_string_overwrite_cex :
    (extract_tenant_info "available  ,").lookup "move_in_date" = some (.pyStr "")
    ∧ (update_tenant_profile
        { TenantProfile.init "t0" with move_in_date := .pyStr "June 2024" }
        (extract_tenant_info "available  ,") "t1").move_in_date = .pyStr ""
    ∧ ({ TenantProfile.init "t0" with move_in_date := .pyStr "June 2024" }
        : TenantProfile).move_in_date = .pyStr "June 2024" := by
  refine ⟨?_, ?_, rfl⟩ <;> decide

/-- Claim C5 amended: merges of LLM-extraction results never reset a
non-empty profile field to `None` or to the empty string (each accepted
value survives the emptiness guard), but the rule-based extractor can
emit an empty-string capture which the merge then writes over a
non-empty field. -/
theorem C5_llm_merge_monotone (p : TenantProfile) (f : PField)
    (steps : List (TenantInfoResult × String))
    (h : nonEmptyVal (getF p f)) :
    nonEmptyVal (getF (steps.foldl
      (fun q st => update_tenant_profile q (processLLMResult st.1) st.2) p) f) := by
  induction steps generalizing p with
  | nil => exact h
  | cons st rest ih =>
    refine ih _ ?_
    rw [getF_update]
    exact applyUpdates_nonEmpty _ _ f
      (fun kv hkv => processLLMResult_nonEmpty st.1 kv hkv) h

/-- Witness for C5 (amended form): a profile with `age = 25` keeps a
non-empty age through an LLM-result merge. -/
theorem C5_llm_merge_monotone_witness :
    nonEmptyVal (getF ([(⟨[("sex", ⟨some "male", mkRat 9 10⟩)], some "English"⟩, "t1")].foldl
      (fun q st => update_tenant_profile q (processLLMResult st.1) st.2)
      { TenantProfile.init "t0" with age := .pyInt 25 }) .age) :=
  C5_llm_merge_monotone { TenantProfile.init "t0" with age := .pyInt 25 } .age
    [(⟨[("sex", ⟨some "male", mkRat 9 10⟩)], some "English"⟩, "t1")] (by decide)

/-- Counterexample to C6: the profile-store merge is duck-typed over
`hasattr`, and `hasattr(profile, "status")` is true; the LLM
extractor's field keys are unconstrained, so an update map can carry a
`status` key, which the merge writes directly.  A merge of
`{status: "qualified"}` moves an incomplete prospect to `qualified`
with required fields still empty (refuting "exactly when all six are
first simultaneously non-empty"), and a merge of
`{status: "viewing_scheduled"}` moves a fully-qualified profile away
from `qualified` again (refuting "the transition occurs at most once
per profile" as a one-way step). -/
theorem C6_status_key_breaks_discipline_cex :
    (update_tenant_profile (TenantProfile.init "t0")
        [("status", PyVal.pyStr "qualified")] "t1").status = .pyStr "qualified"
    ∧ requiredComplete (applyUpdates (TenantProfile.init "t0")
        [("status", PyVal.pyStr "qualified")]) = false
    ∧ (update_tenant_profile
        { TenantProfile.init "t0" with
            age := .pyInt 25, sex := .pyStr "male", occupation := .pyStr "engineer",
            move_in_date := .pyStr "June", rental_duration := .pyStr "12 months",
            guarantor_status := .pyStr "yes", status := .pyStr "qualified" }
        [("status", PyVal.pyStr "viewing_scheduled")] "t1").status
      = .pyStr "viewing_scheduled" := by
  refine ⟨?_, ?_, ?_⟩ <;> decide

/-- Claim C6 amended: restricted to merges whose keys are extraction
field names (which exclude `status`), the transition discipline holds:
from `prospect`, a merge reaches `qualified` exactly when it makes the
six required fields simultaneously truthy (1); an optional-only merge
on an incomplete profile stays `prospect` (2); a `qualified` profile
stays `qualified` (3); and over a sequence of such merges the status is
`qualified` exactly when some non-empty prefix completed the six
fields (4).  A merge carrying a `status` key escapes this discipline
(see the counterexample). -/
theorem C6_qualification_transition :
    (∀ (p : TenantProfile) (u : List (String × PyVal)) (now : String),
        p.status = .pyStr "prospect" →
        (∀ kv ∈ u, kv.1 ∈ extractionFieldKeys) →
        ((update_tenant_profile p u now).status = .pyStr "qualified"
          ↔ requiredComplete (applyUpdates p u) = true))
    ∧ (∀ (p : TenantProfile) (u : List (String × PyVal)) (now : String),
        p.status = .pyStr "prospect" → requiredComplete p = false →
        (∀ kv ∈ u, kv.1 ∈ optionalFieldKeys) →
        (update_tenant_profile p u now).status = .pyStr "prospect")
    ∧ (∀ (p : TenantProfile) (u : List (String × PyVal)) (now : String),
        p.status = .pyStr "qualified" →
        (∀ kv ∈ u, kv.1 ∈ extractionFieldKeys) →
        (update_tenant_profile p u now).status = .pyStr "qualified")
    ∧ (∀ (p : TenantProfile) (steps : List (List (String × PyVal) × String)),
        p.status = .pyStr "prospect" → requiredComplete p = false →
        (∀ su ∈ steps, ∀ kv ∈ su.1, kv.1 ∈ extractionFieldKeys) →
        ((mergeSteps p steps).status = .pyStr "qualified"
          ↔ ∃ n, 0 < n ∧ requiredComplete (mergeSteps p (steps.take n)) = true)) := by
  refine ⟨?_, ?_, ?_, ?_⟩
  · intro p u now h hk
    exact update_status_qualified_iff p u now h
      (fun kv hm => extractionFieldKeys_ne_status (hk kv hm))
  · intro p u now h h0 hopt
    rw [update_status_eq, requiredComplete_applyUpdates_optional u p hopt, h0,
      applyUpdates_status u p (fun kv hm => optionalFieldKeys_ne_status (hopt kv hm)), h]
    simp
  · intro p u now h hk
    exact update_status_of_qualified p u now h
      (fun kv hm => extractionFieldKeys_ne_status (hk kv hm))
  · intro p steps h h0 hk
    exact mergeSteps_qualified_iff steps p h h0
      (fun su hsu kv hm => extractionFieldKeys_ne_status (hk su hsu kv hm))

/-- Witness for C6 (amended form): an optional-only merge on an empty
profile stays `prospect`; supplying the sixth required field fires the
transition. -/
theorem C6_qualification_transition_witness :
    (update_tenant_profile (TenantProfile.init "t0")
      [("viewing_interest", PyVal.pyBool true)] "t1").status = .pyStr "prospect"
    ∧ (update_tenant_profile
        { TenantProfile.init "t0" with
            age := .pyInt 25, sex := .pyStr "male", occupation := .pyStr "engineer",
            move_in_date := .pyStr "June", rental_duration := .pyStr "12 months" }
        [("guarantor_status", PyVal.pyStr "yes")] "t1").status = .pyStr "qualified" :=
  ⟨C6_qualification_transition.2.1 (TenantProfile.init "t0")
      [("viewing_interest", PyVal.pyBool true)] "t1" rfl (by decide) (by decide),
   (C6_qualification_transition.1
      { TenantProfile.init "t0" with
          age := .pyInt 25, sex := .pyStr "male", occupation := .pyStr "engineer",
          move_in_date := .pyStr "June", rental_duration := .pyStr "12 months" }
      [("guarantor_status", PyVal.pyStr "yes")] "t1" rfl (by decide)).mpr (by decide)⟩

/-- Counterexample to C7: when the LLM is not configured, a call on an
already-handed-off session returns the test-mode message, not the fixed
closing text (though it still mutates nothing). -/
theorem C7_test_mode_overrides_closing_cex :
    handle_message false ⟨none, .ok "", [], "", "", ""⟩ "hello" "[]" "t1"
        (some ("s7", { Session.init "t0" with handoff_completed := true }))
      = (testModeMessage, some { Session.init "t0" with handoff_completed := true })
    ∧ testModeMessage ≠ closingMessage := by
  constructor <;> decide

/-- Claim C7 amended: when the LLM is configured, once
`handoff_completed` is true every call short-circuits to the fixed
closing text and returns the session state entirely unchanged (no
extraction, no profile mutation, no appended turn). -/
theorem C7_terminal_short_circuit (o : Oracle) (ui pd now sid : String) (s : Session)
    (h : s.handoff_completed = true) :
    handle_message true o ui pd now (some (sid, s)) = (closingMessage, some s) := by
  unfold handle_message
  simp only [Bool.not_true, Bool.false_eq_true, if_false, if_pos h]

/-- Witness for C7 (amended form) at a concrete handed-off session. -/
theorem C7_terminal_short_circuit_witness :
    handle_message true ⟨none, .error "llm down", [], "", "", ""⟩ "anything" "[]" "t2"
        (some ("s7b", { Session.init "t0" with handoff_completed := true }))
      = (closingMessage, some { Session.init "t0" with handoff_completed := true }) :=
  C7_terminal_short_circuit ⟨none, .error "llm down", [], "", "", ""⟩
    "anything" "[]" "t2" "s7b" { Session.init "t0" with handoff_completed := true } rfl

/-- Claim C8: every message of the greeting allow-list (which contains
no manual, emotional or difficulty trigger keyword) leaves the detector
untriggered, whatever the session's language-preference state. -/
theorem C8_greeting_exclusion (msg : String) (lang : Option PyVal)
    (h : msg ∈ greetingAllowList) :
    (detect_handoff_triggers msg lang).handoff_triggered = false := by
  simp only [greetingAllowList, List.mem_cons, List.not_mem_nil, or_false] at h
  rcases h with h | h | h | h <;> subst h <;>
    rw [detect_no_triggers _ lang (by decide) (by decide) (by decide)]

/-- Witness for C8: "hello" on a session with a recorded language
preference does not trigger. -/
theorem C8_greeting_exclusion_witness :
    (detect_handoff_triggers "hello" (some (.pyStr "French"))).handoff_triggered = false :=
  C8_greeting_exclusion "hello" (some (.pyStr "French")) (by decide)

/-- Counterexample to C9: a message with two emotional keywords AND a
difficulty marker, on a session with a recorded language preference:
the language-barrier rule runs after the emotional rule and overwrites
the priority to "medium" — the detector does not return "high". -/
theorem C9_high_priority_overwritten_cex :
    detect_handoff_triggers "sorry, urgent problem" (some (.pyStr "French"))
      = { handoff_triggered := true, handoff_reason := "Potential language barrier",
          confidence_level := "high", escalation_priority := "medium" }
    ∧ 2 ≤ emotionalMatchCount (pyLower "sorry, urgent problem")
    ∧ ("medium" : String) ≠ "high" := by
  refine ⟨?_, ?_, ?_⟩ <;> decide

/-- Claim C9 amended: two or more emotional-keyword matches always
trigger the handoff, and yield escalation priority "high" — overriding
the manual rule's "medium" — unless the later language-barrier rule
also fires (recorded language preference plus a difficulty marker), in
which case the priority is overwritten to "medium". -/
theorem C9_emotional_high_priority (msg : String) (lang : Option PyVal)
    (h2 : 2 ≤ emotionalMatchCount (pyLower msg)) :
    (detect_handoff_triggers msg lang).handoff_triggered = true
    ∧ ((langStateTruthy lang
          && difficultyKeywords.any (fun k => substrB k (pyLower msg))) = false →
        (detect_handoff_triggers msg lang).escalation_priority = "high") := by
  unfold detect_handoff_triggers
  dsimp only
  rw [if_pos h2]
  constructor
  · split <;> rfl
  · intro hno
    rw [if_neg (by rw [hno]; exact Bool.false_ne_true)]

/-- Witness for C9 (amended form): both the manual rule and the
emotional rule match; the result is triggered with priority "high". -/
theorem C9_emotional_high_priority_witness :
    2 ≤ emotionalMatchCount (pyLower "speak to someone urgent problem")
    ∧ (detect_handoff_triggers "speak to someone urgent problem" none).handoff_triggered
        = true
    ∧ (detect_handoff_triggers "speak to someone urgent problem" none).escalation_priority
        = "high"
    ∧ manualTriggerKeywords.find?
        (fun k => substrB k (pyLower "speak to someone urgent problem"))
      = some "speak to someone" :=
  ⟨by decide,
   (C9_emotional_high_priority "speak to someone urgent problem" none (by decide)).1,
   (C9_emotional_high_priority "speak to someone urgent problem" none (by decide)).2
     (by decide),
   by decide⟩

/-- Claim C10: the detector's `confidence_level` is the constant "high"
for every message and session state; the rule-based branches only ever
touch the triggered flag, the reason and the escalation priority. -/
theorem C10_confidence_level_constant (msg : String) (lang : Option PyVal) :
    (detect_handoff_triggers msg lang).confidence_level = "high" := by
  unfold detect_handoff_triggers
  dsimp only
  cases hman : manualTriggerKeywords.find? (fun k => substrB k (pyLower msg)) <;>
    simp only [hman] <;> split <;> split <;> rfl

end RentalGenie
